import Mathlib

/-!
Shallow embedding of the GPU-AV shader instrumentor core
(`layers/gpu/instrumentation/gpuav_shader_instrumentor.cpp`).

SPIR-V words are modelled as natural numbers (`Words := List Nat`); Vulkan
handles are modelled as natural numbers, with `0` standing for
`VK_NULL_HANDLE`.  External collaborators (the SPIRV-Tools passes, validator,
DCE optimizer, the shader hash, driver dispatch, and descriptor-set-layout
state lookups) are modelled as explicit environment records: the code in this
translation unit only observes their results through the recorded interfaces.
-/

set_option autoImplicit false

namespace GpuavModel

/-- A SPIR-V binary: a stream of 32-bit words. -/
abbrev Words := List Nat

/-- Models `spv::MagicNumber` (0x07230203), checked by `InstrumentShader`. -/
def spvMagicNumber : Nat := 119734787

/-! ## Core abort state and `InternalError` / `InternalWarning`

`GpuShaderInstrumentor::InternalError` marks the core aborted, logs an error,
and releases the per-device dispatch object so subsequent intercepts become
no-ops. -/

/-- Mutable core status of `GpuShaderInstrumentor` relevant to error handling:
the `aborted_` flag, whether `ReleaseDeviceDispatchObject` ran, and how many
internal errors / warnings have been logged. -/
structure CoreState where
  aborted : Bool
  dispatchReleased : Bool
  errorsLogged : Nat
  warningsLogged : Nat
deriving DecidableEq, Repr

/-- The initial, live core state. -/
def CoreState.init : CoreState := ⟨false, false, 0, 0⟩

/-- Models `GpuShaderInstrumentor::InternalError`: sets `aborted_ = true`, logs one
error, and calls `ReleaseDeviceDispatchObject` (disconnecting the core). -/
def internalError (st : CoreState) : CoreState :=
  { st with aborted := true, dispatchReleased := true, errorsLogged := st.errorsLogged + 1 }

/-- Models `GpuShaderInstrumentor::InternalWarning`: logs one warning, leaves the
core live. -/
def internalWarning (st : CoreState) : CoreState :=
  { st with warningsLogged := st.warningsLogged + 1 }

/-! ## Settings -/

/-- The subset of `gpuav_settings` read by this translation unit. -/
structure GpuAVSettings where
  cacheInstrumentedShaders : Bool
  selectInstrumentedShaders : Bool
  debugDumpInstrumentedShaders : Bool
  debugValidateInstrumentedShaders : Bool
  debugPrintfEnabled : Bool
  debugPrintfOnly : Bool
  bindlessDescriptor : Bool
  bufferDeviceAddress : Bool
  rayQuery : Bool
  postProcessDescriptorIndex : Bool
  /-- Models `gpuav_settings.IsSpirvModified()`: true iff any rewriting will occur. -/
  isSpirvModified : Bool
deriving DecidableEq, Repr

/-! ## SpirvCache -/

/-- Models `SpirvCache`: fingerprint → owned word vector.  The underlying
`unordered_map` is modelled as an association list with unique keys maintained
by the `emplace` semantics of `Add`. -/
structure SpirvCache where
  spirvShaders : List (Nat × Words)
deriving DecidableEq, Repr

/-- Models `SpirvCache::Get`: the stored vector for the fingerprint, or nothing. -/
def SpirvCache.Get (c : SpirvCache) (hash : Nat) : Option Words :=
  c.spirvShaders.lookup hash

/-- Models `SpirvCache::Add` uses `unordered_map::emplace`, which inserts only when
the key is absent (an existing entry is never overwritten). -/
def SpirvCache.Add (c : SpirvCache) (hash : Nat) (spirv : Words) : SpirvCache :=
  if (c.Get hash).isSome then c else ⟨(hash, spirv) :: c.spirvShaders⟩

/-- The empty cache. -/
def SpirvCache.empty : SpirvCache := ⟨[]⟩

/-! ## The SPIRV-Tools environment

`spirv::Module` construction, the individual instrumentation passes, the
external validator (`GpuValidateShader` wrapping `spvValidateWithOptions`),
the aggressive-DCE optimizer, and `hash_util::ShaderHash` are external
collaborators.  Their observable behavior on one module is recorded here; for
a fixed environment they are deterministic functions of the input. -/

/-- The per-module answers of the external SPIRV-Tools passes run by
`InstrumentShader`: for each pass, whether it reported a modification, and
the serialized binary `Module::ToBinary` would produce after `PostProcess`. -/
structure SpirvModulePasses where
  bindlessDescriptorModified : Bool
  nonBindlessOOBBufferModified : Bool
  nonBindlessOOBTexelBufferModified : Bool
  bufferDeviceAddressModified : Bool
  rayQueryModified : Bool
  postProcessDescriptorIndexingModified : Bool
  debugPrintfModified : Bool
  toBinary : Words
deriving DecidableEq, Repr

/-- External SPIRV-Tools / hashing behavior, deterministic per input. -/
structure SpirvToolsEnv where
  /-- The module built by `spirv::Module(input, …)` with the given
  `shader_id` and `has_bindless_descriptors` settings. -/
  moduleOf : Nat → Bool → Words → SpirvModulePasses
  /-- Result of `GpuValidateShader` on a binary (validator options are fixed
  per device). -/
  validOk : Words → Bool
  /-- The aggressive-DCE optimizer: `some` optimized binary, or `none` when
  `Optimizer::Run` fails. -/
  dce : Words → Option Words
  /-- Models `hash_util::ShaderHash` over a word stream. -/
  shaderHash : Words → Nat
  /-- Whether the descriptor-set-layout state for a handle has a bindless
  binding (`vvl::IsBindless` over its binding flags). -/
  layoutBindless : Nat → Bool

/-- The accumulation of the `modified` flag over the pass sequence of
`InstrumentShader` (each pass runs only when its setting is enabled; the
flags are OR-ed in the source's fixed order; linking adds no flag). -/
def instrumentationModified (s : GpuAVSettings) (m : SpirvModulePasses) : Bool :=
  let modified := false
  let modified := if s.bindlessDescriptor then
      ((modified || m.bindlessDescriptorModified) || m.nonBindlessOOBBufferModified)
        || m.nonBindlessOOBTexelBufferModified
    else modified
  let modified := if s.bufferDeviceAddress then modified || m.bufferDeviceAddressModified else modified
  let modified := if s.rayQuery then modified || m.rayQueryModified else modified
  let modified := if s.postProcessDescriptorIndex then
      modified || m.postProcessDescriptorIndexingModified
    else modified
  let modified := if s.debugPrintfEnabled then modified || m.debugPrintfModified else modified
  modified

/-! ## InstrumentShader -/

/-- A debug dump file written by `InstrumentShader` when
`debug_dump_instrumented_shaders` is on: `dump_<id>_before.spv`,
`dump_<id>_after.spv`, `dump_<id>_opt.spv`. -/
inductive DumpFile where
  | beforeSpv (id : Nat)
  | afterSpv (id : Nat)
  | optSpv (id : Nat)
deriving DecidableEq, Repr

/-- Result of one `GpuShaderInstrumentor::InstrumentShader` call: the
instrumented binary when the function returns `true`, the dump files written,
and the core state after the call (`InternalError` may have run). -/
structure InstrumentOutcome where
  result : Option Words
  dumps : List DumpFile
  core : CoreState
deriving DecidableEq, Repr

/-- Models `GpuShaderInstrumentor::InstrumentShader`: magic-number guard, optional
`_before` dump, pass pipeline, early `false` when nothing was modified,
`_after` dump, optional re-validation (failure → `InternalError`, return
`false`), aggressive DCE unless `debug_printf_only` (failure →
`InternalError`, return `false`), `_opt` dump. -/
def instrumentShader (tools : SpirvToolsEnv) (s : GpuAVSettings) (st : CoreState)
    (uniqueShaderId : Nat) (hasBindlessDescriptors : Bool) (inputSpirv : Words) :
    InstrumentOutcome :=
  if inputSpirv.headD 0 ≠ spvMagicNumber then
    { result := none, dumps := [], core := st }
  else
    let dumps0 : List DumpFile :=
      if s.debugDumpInstrumentedShaders then [.beforeSpv uniqueShaderId] else []
    let m := tools.moduleOf uniqueShaderId hasBindlessDescriptors inputSpirv
    if instrumentationModified s m = false then
      { result := none, dumps := dumps0, core := st }
    else
      let binary := m.toBinary
      let dumps1 := dumps0 ++
        (if s.debugDumpInstrumentedShaders then [.afterSpv uniqueShaderId] else [])
      if s.debugValidateInstrumentedShaders ∧ tools.validOk binary = false then
        { result := none, dumps := dumps1, core := internalError st }
      else if s.debugPrintfOnly = false then
        match tools.dce binary with
        | none => { result := none, dumps := dumps1, core := internalError st }
        | some optimized =>
          let dumps2 := dumps1 ++
            (if s.debugDumpInstrumentedShaders then [.optSpv uniqueShaderId] else [])
          { result := some optimized, dumps := dumps2, core := st }
      else
        { result := some binary, dumps := dumps1, core := st }

/-! ## Device-scoped layout state and pipeline-layout adaptation -/

/-- The device-scoped handles of `GpuShaderInstrumentor` used by layout
adaptation: `instrumentation_desc_set_bind_index_`, `dummy_desc_layout_`,
`instrumentation_desc_layout_`. -/
structure LayoutDeviceState where
  instrumentationDescSetBindIndex : Nat
  dummyDescLayout : Nat
  instrumentationDescLayout : Nat
deriving DecidableEq, Repr

/-- Models `VkPipelineLayoutCreateInfo`: the caller's set-layout handle array. -/
structure PipelineLayoutCreateInfo where
  pSetLayouts : List Nat
deriving DecidableEq, Repr

/-- Models `GpuShaderInstrumentor::PreCallRecordCreatePipelineLayout`: when SPIR-V is
modified, either warn on overflow (`setLayoutCount >
instrumentation_desc_set_bind_index_`) and leave the create info alone, or
rebuild the set-layout array as caller's layouts, then dummy layouts up to the
bind index, then the instrumentation layout.  Returns the create info handed
to the driver and whether `InternalWarning` was emitted. -/
def preCallRecordCreatePipelineLayout (s : GpuAVSettings) (dev : LayoutDeviceState)
    (ci : PipelineLayoutCreateInfo) : PipelineLayoutCreateInfo × Bool :=
  if s.isSpirvModified then
    if ci.pSetLayouts.length > dev.instrumentationDescSetBindIndex then
      (ci, true)
    else
      let newLayouts := ci.pSetLayouts
        ++ List.replicate (dev.instrumentationDescSetBindIndex - ci.pSetLayouts.length)
            dev.dummyDescLayout
        ++ [dev.instrumentationDescLayout]
      ({ pSetLayouts := newLayouts }, false)
  else
    (ci, false)

/-! ## InstrumentedShader registry (`instrumented_shaders_map_`) -/

/-- An `InstrumentedShader` record: `{ pipeline, shader_module, shader_object,
original_spirv }`, with `0` for `VK_NULL_HANDLE`. -/
structure InstrumentedShader where
  pipeline : Nat
  shaderModule : Nat
  shaderObject : Nat
  originalSpirv : Words
deriving DecidableEq, Repr

/-- Models `kPipelineStageInfoHandle`: the sentinel shader-module handle recorded
when the module was inlined via `VkPipelineShaderStageCreateInfo::pNext`
(an external constant; any fixed non-null value). -/
def kPipelineStageInfoHandle : Nat := 4294967295

/-- The concurrent map `unique shader id → InstrumentedShader`, modelled as an
association list observed at a quiescent point. -/
abbrev Registry := List (Nat × InstrumentedShader)

/-- Models `insert_or_assign`: replace the record under an existing id, otherwise
insert a new entry. -/
def Registry.insertOrAssign (r : Registry) (id : Nat) (v : InstrumentedShader) : Registry :=
  if r.any (fun kv => kv.1 = id) then
    r.map (fun kv => if kv.1 = id then (id, v) else kv)
  else
    (id, v) :: r

/-- Models `erase(id)`: drop every entry stored under the id. -/
def Registry.erase (r : Registry) (id : Nat) : Registry :=
  r.filter (fun kv => kv.1 ≠ id)

/-- Models `snapshot(predicate)`: the point-in-time list of (id, record) pairs whose
record satisfies the predicate. -/
def Registry.snapshot (r : Registry) (pred : InstrumentedShader → Bool) : Registry :=
  r.filter (fun kv => pred kv.2)

/-- Models `GpuShaderInstrumentor::PreCallRecordDestroyPipeline` (registry part):
snapshot by `entry.pipeline == pipeline`, then erase each returned id. -/
def preCallRecordDestroyPipeline (r : Registry) (pipeline : Nat) : Registry :=
  let toErase := r.snapshot (fun entry => entry.pipeline = pipeline)
  toErase.foldl (fun acc kv => acc.erase kv.1) r

/-- Models `GpuShaderInstrumentor::PreCallRecordDestroyShaderEXT`: snapshot by
`entry.shader_object == shader`, then erase each returned id. -/
def preCallRecordDestroyShaderEXT (r : Registry) (shader : Nat) : Registry :=
  let toErase := r.snapshot (fun entry => entry.shaderObject = shader)
  toErase.foldl (fun acc kv => acc.erase kv.1) r

/-! ## Pipeline state and the instrumentation decision -/

/-- The per-stage state tracker data consulted here: the stage's shader-module
handle (`0` when the SPIR-V was inlined), the module's original words, which
stage it is, whether the (copied) stage create info carries a nested
`VkShaderModuleCreateInfo` in its `pNext` chain, and whether that nested
chain enables selective instrumentation. -/
structure StageState where
  moduleHandle : Nat
  moduleWords : Words
  stage : Nat
  inlinedCode : Option Words
  selectiveFeatureOn : Bool
deriving DecidableEq, Repr

instance : Inhabited StageState := ⟨⟨0, [], 0, none, false⟩⟩

/-- The `vvl::Pipeline` fields consulted by this translation unit. -/
structure PipelineState where
  vkHandle : Nat
  stageStates : List StageState
  /-- Models `create_flags & VK_PIPELINE_CREATE_LIBRARY_BIT_KHR`. -/
  createFlagsLibraryBit : Bool
  /-- whether `linking_shaders != 0` (GPL final link). -/
  linkingShaders : Bool
  /-- the descriptor-set slots statically used by the shaders. -/
  activeSlots : List Nat
  /-- Models `PipelineLayoutState()->set_layouts.size()`, `none` when the layout
  state is null. -/
  layoutSetLayoutsSize : Option Nat
  /-- Models `HasBindlessDescriptors(pipeline_state)`: derived from the pipeline
  layout's descriptor-set-layout states (external state lookup). -/
  hasBindlessDescriptors : Bool
deriving DecidableEq, Repr

/-- Models `GpuShaderInstrumentor::NeedPipelineCreationShaderInstrumentation`. -/
def needPipelineCreationShaderInstrumentation (bindIndex : Nat) (p : PipelineState) : Bool :=
  if p.stageStates.isEmpty then false
  else if p.createFlagsLibraryBit then false
  else if p.activeSlots.contains bindIndex then false
  else
    match p.layoutSetLayoutsSize with
    | some n => if n > bindIndex then false else true
    | none => true

/-! ## Shader-object instrumentation -/

/-- Models `VkShaderCreateInfoEXT`: the SPIR-V code, the set-layout handles, and
whether the `pNext` chain enables selective instrumentation
(`IsSelectiveInstrumentationEnabled`). -/
structure ShaderCreateInfoEXT where
  pCode : Words
  setLayouts : List Nat
  selectiveFeatureOn : Bool
deriving DecidableEq, Repr

/-- Models `GpuShaderInstrumentor::HasBindlessDescriptors(VkShaderCreateInfoEXT&)`:
any of the create info's set layouts has a bindless binding (looked up in the
external descriptor-set-layout state). -/
def hasBindlessDescriptorsShaderCI (tools : SpirvToolsEnv) (ci : ShaderCreateInfoEXT) : Bool :=
  ci.setLayouts.any (fun handle => tools.layoutBindless handle)

/-- Models `chassis::ShaderObjectInstrumentationData`. -/
structure ShaderObjectInstrumentationData where
  instrumentedSpirv : Words
  uniqueShaderId : Nat
deriving DecidableEq, Repr

/-- Modelled from the spec: the chassis-side `IsInstrumented()` predicate on
shader-object instrumentation data (declared outside this translation unit):
a create-info slot counts as instrumented exactly when instrumentation
recorded a unique shader id for it (default-initialized data, id `0`, means
"record nothing"). -/
def ShaderObjectInstrumentationData.IsInstrumented (d : ShaderObjectInstrumentationData) : Bool :=
  d.uniqueShaderId ≠ 0

instance : Inhabited ShaderObjectInstrumentationData := ⟨⟨[], 0⟩⟩

/-- Mutable instrumentor state threaded through one creation call. -/
structure InstrumentorState where
  core : CoreState
  cache : SpirvCache
  /-- Models `unique_shader_module_id_`, the monotonically increasing counter. -/
  uniqueShaderModuleId : Nat
  /-- Models `selected_instrumented_shaders`, the selected module-handle set. -/
  selectedInstrumentedShaders : List Nat
  /-- Models `instrumented_shaders_map_`. -/
  registry : Registry
deriving Repr

/-- Result of one `PreCallRecordShaderObjectInstrumentation` call, with the
number of `InstrumentShader` invocations it performed (0 or 1). -/
structure ShaderObjectInstrResult where
  state : InstrumentorState
  createInfo : ShaderCreateInfoEXT
  data : ShaderObjectInstrumentationData
  instrumentShaderCalls : Nat

/-- Models `GpuShaderInstrumentor::PreCallRecordShaderObjectInstrumentation`:
selective-instrumentation gate; fingerprint + cache probe (or counter) for
the unique id; `InstrumentShader` on a miss; on `cached || pass`, substitute
the instrumented code into the create info and populate the cache. -/
def preCallRecordShaderObjectInstrumentation (tools : SpirvToolsEnv) (s : GpuAVSettings)
    (st : InstrumentorState) (ci : ShaderCreateInfoEXT) : ShaderObjectInstrResult :=
  if s.selectInstrumentedShaders ∧ ci.selectiveFeatureOn = false then
    ⟨st, ci, default, 0⟩
  else
    let probe :
        Nat × Bool × Words × InstrumentorState :=
      if s.cacheInstrumentedShaders then
        let hash := tools.shaderHash ci.pCode
        match st.cache.Get hash with
        | some spirv => (hash, true, spirv, st)
        | none => (hash, false, [], st)
      else
        (st.uniqueShaderModuleId, false, [],
          { st with uniqueShaderModuleId := st.uniqueShaderModuleId + 1 })
    let uniqueShaderId := probe.1
    let cached := probe.2.1
    let cachedSpirv := probe.2.2.1
    let st1 := probe.2.2.2
    let hasBindless := hasBindlessDescriptorsShaderCI tools ci
    let run : Option Words × CoreState × Nat :=
      if cached = false then
        let o := instrumentShader tools s st1.core uniqueShaderId hasBindless ci.pCode
        (o.result, o.core, 1)
      else
        (none, st1.core, 0)
    let pass := run.1
    let st2 := { st1 with core := run.2.1 }
    let calls := run.2.2
    if cached ∨ pass.isSome then
      let instrumentedSpirv := if cached then cachedSpirv else pass.getD []
      let ci1 := { ci with pCode := instrumentedSpirv }
      let st3 :=
        if s.cacheInstrumentedShaders ∧ cached = false then
          { st2 with cache := st2.cache.Add uniqueShaderId instrumentedSpirv }
        else st2
      ⟨st3, ci1, ⟨instrumentedSpirv, uniqueShaderId⟩, calls⟩
    else
      ⟨st2, ci, default, calls⟩

/-- The per-create-info set-layout adaptation inlined in
`GpuShaderInstrumentor::PreCallRecordCreateShadersEXT`: warn on overflow
(`setLayoutCount > instrumentation_desc_set_bind_index_`), otherwise rebuild
the set-layout array exactly as the pipeline-layout path does.  Returns the
modified create info and whether `InternalWarning` was emitted. -/
def shaderObjectAdaptLayouts (dev : LayoutDeviceState) (ci : ShaderCreateInfoEXT) :
    ShaderCreateInfoEXT × Bool :=
  if ci.setLayouts.length > dev.instrumentationDescSetBindIndex then
    (ci, true)
  else
    let newLayouts := ci.setLayouts
      ++ List.replicate (dev.instrumentationDescSetBindIndex - ci.setLayouts.length)
          dev.dummyDescLayout
      ++ [dev.instrumentationDescLayout]
    ({ ci with setLayouts := newLayouts }, false)

/-- Models `GpuShaderInstrumentor::PreCallRecordCreateShadersEXT`: pass-through when
`IsSpirvModified()` is false; otherwise, per create info, adapt the set
layouts (or warn) and run shader-object instrumentation on the adapted copy.
Returns the state, the create infos handed to the driver, the per-info
instrumentation data, and the number of `InstrumentShader` invocations. -/
def preCallRecordCreateShadersEXT (tools : SpirvToolsEnv) (s : GpuAVSettings)
    (dev : LayoutDeviceState) (st : InstrumentorState) (cis : List ShaderCreateInfoEXT) :
    InstrumentorState × List ShaderCreateInfoEXT × List ShaderObjectInstrumentationData × Nat :=
  if s.isSpirvModified = false then
    (st, cis, [], 0)
  else
    let step := fun (acc : InstrumentorState × List ShaderCreateInfoEXT ×
        List ShaderObjectInstrumentationData × Nat) (ci : ShaderCreateInfoEXT) =>
      let (adapted, _warned) := shaderObjectAdaptLayouts dev ci
      let r := preCallRecordShaderObjectInstrumentation tools s acc.1 adapted
      (r.state, acc.2.1 ++ [r.createInfo], acc.2.2.1 ++ [r.data],
        acc.2.2.2 + r.instrumentShaderCalls)
    cis.foldl step (st, [], [], 0)

/-! ## Pipeline-creation shader instrumentation (non-GPL path) -/

/-- Models `chassis::ShaderInstrumentationMetadata` for one pipeline stage. -/
structure ShaderInstrumentationMetadata where
  uniqueShaderId : Nat
  passedInShaderStageCI : Bool
deriving DecidableEq, Repr

/-- Modelled from the spec: the chassis-side `IsInstrumented()` predicate on
per-stage metadata (declared outside this translation unit): a stage counts
as instrumented exactly when instrumentation recorded a unique shader id for
it (default metadata, id `0`, means "nothing to save"). -/
def ShaderInstrumentationMetadata.IsInstrumented (m : ShaderInstrumentationMetadata) : Bool :=
  m.uniqueShaderId ≠ 0

instance : Inhabited ShaderInstrumentationMetadata := ⟨⟨0, false⟩⟩

/-- One shader stage of the deep-copied pipeline create info (the C++
templates over graphics/compute/ray-tracing variants; all expose a stage
array of `safe_VkPipelineShaderStageCreateInfo`). -/
structure ShaderStageCI where
  stage : Nat
  module : Nat
  /-- nested `VkShaderModuleCreateInfo::pCode` found in the stage's `pNext`
  chain, when the SPIR-V is inlined. -/
  inlinedCode : Option Words
deriving DecidableEq, Repr

instance : Inhabited ShaderStageCI := ⟨⟨0, 0, none⟩⟩

/-- The deep-copied pipeline create info observed here: its stage array. -/
structure PipelineCreateInfoModel where
  stages : List ShaderStageCI
deriving DecidableEq, Repr

/-- Models `SetShaderModule`: substitute the replacement module handle into stage
slot `i` of the copied create info. -/
def setStageModule (ci : PipelineCreateInfoModel) (i : Nat) (handle : Nat) :
    PipelineCreateInfoModel :=
  ⟨ci.stages.mapIdx (fun j sci => if j = i then { sci with module := handle } else sci)⟩

/-- Models `sm_ci->SetCode`: replace the nested inlined SPIR-V of stage slot `i`. -/
def setStageInlinedCode (ci : PipelineCreateInfoModel) (i : Nat) (code : Words) :
    PipelineCreateInfoModel :=
  ⟨ci.stages.mapIdx (fun j sci => if j = i then { sci with inlinedCode := some code } else sci)⟩

/-- Driver dispatch: `DispatchCreateShaderModule` returns the new module
handle on `VK_SUCCESS`, `none` on failure. -/
structure DriverEnv where
  createShaderModule : Words → Option Nat

/-- One iteration of the stage loop of
`GpuShaderInstrumentor::PreCallRecordPipelineCreationShaderInstrumentation`:
selective gate, cache probe / counter, `InstrumentShader` on a miss, then on
`cached || pass` either a replacement `VkShaderModule` (module-handle stage;
driver failure → `InternalError`) or an in-place inlined-code update, and a
cache `Add`. -/
def pipelineStageInstrumentationStep (tools : SpirvToolsEnv) (drv : DriverEnv)
    (s : GpuAVSettings) (hasBindless : Bool) (ss : StageState) (i : Nat)
    (st : InstrumentorState) (ci : PipelineCreateInfoModel) :
    InstrumentorState × PipelineCreateInfoModel × ShaderInstrumentationMetadata × Nat :=
  let smCI := ((ci.stages.getD i default).inlinedCode : Option Words)
  let selectiveSkip :=
    if s.selectInstrumentedShaders then
      if smCI.isSome ∧ ss.selectiveFeatureOn = false then true
      else if (st.selectedInstrumentedShaders.contains ss.moduleHandle) = false then true
      else false
    else false
  if selectiveSkip then
    (st, ci, default, 0)
  else
    let probe : Nat × Bool × Words × InstrumentorState :=
      if s.cacheInstrumentedShaders then
        let hash := tools.shaderHash ss.moduleWords
        match st.cache.Get hash with
        | some spirv => (hash, true, spirv, st)
        | none => (hash, false, [], st)
      else
        (st.uniqueShaderModuleId, false, [],
          { st with uniqueShaderModuleId := st.uniqueShaderModuleId + 1 })
    let uniqueShaderId := probe.1
    let cached := probe.2.1
    let cachedSpirv := probe.2.2.1
    let st1 := probe.2.2.2
    let run : Option Words × CoreState × Nat :=
      if cached = false then
        let o := instrumentShader tools s st1.core uniqueShaderId hasBindless ss.moduleWords
        (o.result, o.core, 1)
      else
        (none, st1.core, 0)
    let pass := run.1
    let st2 := { st1 with core := run.2.1 }
    let calls := run.2.2
    if cached ∨ pass.isSome then
      let instrumentedSpirv := if cached then cachedSpirv else pass.getD []
      let meta0 : ShaderInstrumentationMetadata := ⟨uniqueShaderId, false⟩
      let afterSubst :
          InstrumentorState × PipelineCreateInfoModel × ShaderInstrumentationMetadata :=
        if ss.moduleHandle ≠ 0 then
          match drv.createShaderModule instrumentedSpirv with
          | some newModule => (st2, setStageModule ci i newModule, meta0)
          | none => ({ st2 with core := internalError st2.core }, ci, meta0)
        else if smCI.isSome then
          (st2, setStageInlinedCode ci i instrumentedSpirv, { meta0 with passedInShaderStageCI := true })
        else
          (st2, ci, meta0)
      let st3 := afterSubst.1
      let st4 :=
        if s.cacheInstrumentedShaders ∧ cached = false then
          { st3 with cache := st3.cache.Add uniqueShaderId instrumentedSpirv }
        else st3
      (st4, afterSubst.2.1, afterSubst.2.2, calls)
    else
      (st2, ci, default, calls)

/-- The stage loop of the non-GPL
`PreCallRecordPipelineCreationShaderInstrumentation`, producing the per-stage
metadata vector in order. -/
def pipelineStagesLoop (tools : SpirvToolsEnv) (drv : DriverEnv) (s : GpuAVSettings)
    (hasBindless : Bool) :
    List StageState → Nat → InstrumentorState → PipelineCreateInfoModel → Nat →
    InstrumentorState × PipelineCreateInfoModel × List ShaderInstrumentationMetadata × Nat
  | [], _, st, ci, calls => (st, ci, [], calls)
  | ss :: rest, i, st, ci, calls =>
    let r := pipelineStageInstrumentationStep tools drv s hasBindless ss i st ci
    let rec' := pipelineStagesLoop tools drv s hasBindless rest (i + 1) r.1 r.2.1
      (calls + r.2.2.2)
    (rec'.1, rec'.2.1, r.2.2.1 :: rec'.2.2.1, rec'.2.2.2)

/-- Models `GpuShaderInstrumentor::PreCallRecordPipelineCreationShaderInstrumentation`
(the non-GPL template): resize the metadata to the stage count and run the
stage loop over the deep-copied create info. -/
def preCallRecordPipelineCreationShaderInstrumentation (tools : SpirvToolsEnv)
    (drv : DriverEnv) (s : GpuAVSettings) (st : InstrumentorState) (p : PipelineState)
    (newCI : PipelineCreateInfoModel) :
    InstrumentorState × PipelineCreateInfoModel × List ShaderInstrumentationMetadata × Nat :=
  pipelineStagesLoop tools drv s p.hasBindlessDescriptors p.stageStates 0 st newCI 0

/-- The GPL (graphics-pipeline-library link) instrumentation path
(`PreCallRecordPipelineCreationShaderInstrumentationGPL`), taken when
`linking_shaders != 0`; its per-library driver interactions are treated at
interface level since no claim concerns it. -/
structure GplEnv where
  run : InstrumentorState → PipelineState → PipelineCreateInfoModel →
    InstrumentorState × PipelineCreateInfoModel × List ShaderInstrumentationMetadata × Nat

/-- Shared per-pipeline body of the pipeline-creation pre-hooks: deep copy
(the functional model carries the copy as a value), the
`NeedPipelineCreationShaderInstrumentation` gate (skipped slots keep the
default-constructed empty metadata vector), and the stage instrumentation. -/
def preCallPerPipeline (tools : SpirvToolsEnv) (drv : DriverEnv) (gpl : Option GplEnv)
    (s : GpuAVSettings) (dev : LayoutDeviceState) (st : InstrumentorState)
    (p : PipelineState) (origCI : PipelineCreateInfoModel) :
    InstrumentorState × PipelineCreateInfoModel × List ShaderInstrumentationMetadata × Nat :=
  let newCI := origCI
  if needPipelineCreationShaderInstrumentation dev.instrumentationDescSetBindIndex p = false then
    (st, newCI, [], 0)
  else
    match gpl with
    | some g =>
      if p.linkingShaders then g.run st p newCI
      else preCallRecordPipelineCreationShaderInstrumentation tools drv s st p newCI
    | none => preCallRecordPipelineCreationShaderInstrumentation tools drv s st p newCI

/-- Models `GpuShaderInstrumentor::PreCallRecordCreateGraphicsPipelines`:
pass-through when `IsSpirvModified()` is false (the driver receives the
caller's create infos); otherwise run the per-pipeline body (with the GPL
branch for `linking_shaders != 0`) over every slot and hand the modified
copies to the driver. -/
def preCallRecordCreateGraphicsPipelines (tools : SpirvToolsEnv) (drv : DriverEnv)
    (gpl : GplEnv) (s : GpuAVSettings) (dev : LayoutDeviceState) (st : InstrumentorState)
    (items : List (PipelineState × PipelineCreateInfoModel)) :
    InstrumentorState × List PipelineCreateInfoModel ×
      List (List ShaderInstrumentationMetadata) × Nat :=
  if s.isSpirvModified = false then
    (st, items.map (fun it => it.2), [], 0)
  else
    let step := fun (acc : InstrumentorState × List PipelineCreateInfoModel ×
        List (List ShaderInstrumentationMetadata) × Nat)
        (it : PipelineState × PipelineCreateInfoModel) =>
      let r := preCallPerPipeline tools drv (some gpl) s dev acc.1 it.1 it.2
      (r.1, acc.2.1 ++ [r.2.1], acc.2.2.1 ++ [r.2.2.1], acc.2.2.2 + r.2.2.2)
    items.foldl step (st, [], [], 0)

/-- Models `GpuShaderInstrumentor::PreCallRecordCreateComputePipelines`: same shape
without the GPL branch. -/
def preCallRecordCreateComputePipelines (tools : SpirvToolsEnv) (drv : DriverEnv)
    (s : GpuAVSettings) (dev : LayoutDeviceState) (st : InstrumentorState)
    (items : List (PipelineState × PipelineCreateInfoModel)) :
    InstrumentorState × List PipelineCreateInfoModel ×
      List (List ShaderInstrumentationMetadata) × Nat :=
  if s.isSpirvModified = false then
    (st, items.map (fun it => it.2), [], 0)
  else
    let step := fun (acc : InstrumentorState × List PipelineCreateInfoModel ×
        List (List ShaderInstrumentationMetadata) × Nat)
        (it : PipelineState × PipelineCreateInfoModel) =>
      let r := preCallPerPipeline tools drv none s dev acc.1 it.1 it.2
      (r.1, acc.2.1 ++ [r.2.1], acc.2.2.1 ++ [r.2.2.1], acc.2.2.2 + r.2.2.2)
    items.foldl step (st, [], [], 0)

/-- Models `GpuShaderInstrumentor::PreCallRecordCreateRayTracingPipelinesNV`: same
shape as the compute hook. -/
def preCallRecordCreateRayTracingPipelinesNV (tools : SpirvToolsEnv) (drv : DriverEnv)
    (s : GpuAVSettings) (dev : LayoutDeviceState) (st : InstrumentorState)
    (items : List (PipelineState × PipelineCreateInfoModel)) :
    InstrumentorState × List PipelineCreateInfoModel ×
      List (List ShaderInstrumentationMetadata) × Nat :=
  preCallRecordCreateComputePipelines tools drv s dev st items

/-- Models `GpuShaderInstrumentor::PreCallRecordCreateRayTracingPipelinesKHR`: same
shape as the compute hook. -/
def preCallRecordCreateRayTracingPipelinesKHR (tools : SpirvToolsEnv) (drv : DriverEnv)
    (s : GpuAVSettings) (dev : LayoutDeviceState) (st : InstrumentorState)
    (items : List (PipelineState × PipelineCreateInfoModel)) :
    InstrumentorState × List PipelineCreateInfoModel ×
      List (List ShaderInstrumentationMetadata) × Nat :=
  preCallRecordCreateComputePipelines tools drv s dev st items

/-- Models `GpuShaderInstrumentor::PostCallRecordPipelineCreationShaderInstrumentation`:
an empty metadata vector (the `NeedPipelineCreationShaderInstrumentation`
skip) returns immediately; otherwise every instrumented stage inserts an
`InstrumentedShader` record keyed by its unique shader id, with the sentinel
module handle for inlined stages. -/
def postCallRecordPipelineCreationShaderInstrumentation (r : Registry) (p : PipelineState)
    (metadata : List ShaderInstrumentationMetadata) : Registry :=
  if metadata.isEmpty then r
  else
    (List.range p.stageStates.length).foldl
      (fun acc i =>
        let m := metadata.getD i default
        if m.IsInstrumented = false then acc
        else
          let ss := p.stageStates.getD i default
          let code := ss.moduleWords
          let moduleHandle :=
            if ss.moduleHandle = 0 ∧ m.passedInShaderStageCI then kPipelineStageInfoHandle
            else ss.moduleHandle
          acc.insertOrAssign m.uniqueShaderId ⟨p.vkHandle, moduleHandle, 0, code⟩)
      r

/-! ## ReserveBindingSlot -/

/-- Models `kMaxAdjustedBoundDescriptorSet` (external header constant; the bind
index is `min(kMaxAdjustedBoundDescriptorSet, maxBoundDescriptorSets) - 1`). -/
def kMaxAdjustedBoundDescriptorSet : Nat := 32

/-- Warnings emitted by `ReserveBindingSlot`. -/
inductive ReserveWarning where
  | limitTooLarge
  | singleSlot
deriving DecidableEq, Repr

/-- Models `GpuShaderInstrumentor::ReserveBindingSlot`: ignore a reported limit of 0;
warn when the limit exceeds `kMaxAdjustedBoundDescriptorSet`; when the
reserve feature is enabled, decrement the limit when it is greater than 1,
otherwise warn and leave it alone.  Returns the adjusted
`maxBoundDescriptorSets` and the warnings emitted. -/
def reserveBindingSlot (reserveEnabled : Bool) (maxBoundDescriptorSets : Nat) :
    Nat × List ReserveWarning :=
  if maxBoundDescriptorSets = 0 then
    (maxBoundDescriptorSets, [])
  else
    let warns0 : List ReserveWarning :=
      if maxBoundDescriptorSets > kMaxAdjustedBoundDescriptorSet then [.limitTooLarge] else []
    if reserveEnabled then
      if maxBoundDescriptorSets > 1 then
        (maxBoundDescriptorSets - 1, warns0)
      else
        (maxBoundDescriptorSets, warns0 ++ [.singleSlot])
    else
      (maxBoundDescriptorSets, warns0)

/-! ## Diagnostic source recovery (`FindShaderSource`) -/

/-- SPIR-V opcodes consulted by `FindShaderSource`. -/
def opExtInstImport : Nat := 11

/-- Models `spv::OpExtInst`. -/
def opExtInst : Nat := 12

/-- Models `spv::OpLine`. -/
def opLine : Nat := 8

/-- Models `spv::OpFunctionEnd`. -/
def opFunctionEnd : Nat := 56

/-- Models `NonSemanticShaderDebugInfo100DebugLine` (external header constant). -/
def nonSemanticShaderDebugInfo100DebugLine : Nat := 103

/-- The extended-instruction-set name matched by `FindShaderSource`. -/
def nonSemanticShaderDebugInfoName : String := "NonSemantic.Shader.DebugInfo.100"

/-- One parsed SPIR-V instruction as exposed by `::Instruction`: its word
array (`Word(i)`), and the decoded literal string starting at word 2
(`GetAsString(2)`, meaningful for `OpExtInstImport`). -/
structure Instruction where
  words : List Nat
  literalString : String
deriving DecidableEq, Repr

/-- Models `Instruction::Word(i)`. -/
def Instruction.Word (insn : Instruction) (i : Nat) : Nat :=
  insn.words.getD i 0

/-- Models `Instruction::Opcode()`: the low half of word 0. -/
def Instruction.Opcode (insn : Instruction) : Nat :=
  insn.Word 0 % 65536

/-- Models `Instruction::ResultId()`: for the `OpExtInstImport` instructions
inspected here, the result id is word 1. -/
def Instruction.ResultId (insn : Instruction) : Nat :=
  insn.Word 1

/-- The loop state of `FindShaderSource`: the resolved
`NonSemantic.Shader.DebugInfo.100` import id (`0` until an import is seen)
and the tracked most-recent line directive. -/
structure LineTrack where
  setId : Nat
  lastLineInst : Option Instruction
deriving DecidableEq, Repr

/-- The initial loop state. -/
def LineTrack.init : LineTrack := ⟨0, none⟩

/-- One iteration of the `FindShaderSource` loop body on one instruction:
resolve the debug-info import id, then track `OpLine` / `DebugLine` extended
instructions and reset the tracker at `OpFunctionEnd`. -/
def lineTrackStep (st : LineTrack) (insn : Instruction) : LineTrack :=
  let st :=
    if insn.Opcode = opExtInstImport ∧ insn.literalString = nonSemanticShaderDebugInfoName then
      { st with setId := insn.ResultId }
    else st
  if insn.Opcode = opExtInst ∧ insn.Word 3 = st.setId ∧
      insn.Word 4 = nonSemanticShaderDebugInfo100DebugLine then
    { st with lastLineInst := some insn }
  else if insn.Opcode = opLine then
    { st with lastLineInst := some insn }
  else if insn.Opcode = opFunctionEnd then
    { st with lastLineInst := none }
  else st

/-- The `FindShaderSource` loop: process each instruction in order and break
right after the one at the requested index (`if (index == instruction_position)
break; index++`). -/
def findShaderSourceLoop : List Instruction → Nat → LineTrack → LineTrack
  | [], _, st => st
  | insn :: rest, position, st =>
    let st1 := lineTrackStep st insn
    if position = 0 then st1 else findShaderSourceLoop rest (position - 1) st1

/-- The line directive `FindShaderSource` has in scope at the requested
instruction index (`last_line_inst` when the loop breaks). -/
def findShaderSourceTracked (instructions : List Instruction) (position : Nat) :
    Option Instruction :=
  (findShaderSourceLoop instructions position LineTrack.init).lastLineInst

/-- The tail of the message `FindShaderSource` emits: source information
resolved from the tracked directive (via the external `GetShaderSourceInfo`),
or the fixed "Unable to source" text. -/
inductive SourceMessage where
  | sourced (directive : Instruction)
  | unableToSource
deriving DecidableEq, Repr

/-- Models `FindShaderSource`: emit from the tracked directive when one is in scope,
otherwise emit "Unable to source. Build shader with debug info to get source
information." -/
def findShaderSource (instructions : List Instruction) (position : Nat) : SourceMessage :=
  match findShaderSourceTracked instructions position with
  | some directive => .sourced directive
  | none => .unableToSource

/-- Specification-side walk, following the spec's words: fold forward over
the instruction stream up to and including the requested index, tracking the
most recent `OpLine` / `DebugLine` directive and resetting at every
`OpFunctionEnd`. -/
def specWalkTracked (instructions : List Instruction) (position : Nat) : Option Instruction :=
  ((instructions.take (position + 1)).foldl lineTrackStep LineTrack.init).lastLineInst

/-- The debug-info import id in effect after a prefix of the stream. -/
def setIdAt (instructions : List Instruction) : Nat :=
  (instructions.foldl lineTrackStep LineTrack.init).setId

instance : Inhabited Instruction := ⟨⟨[], ""⟩⟩

/-- An instruction is a line directive with respect to a debug-info import
id: a `DebugLine` extended instruction of that import, or an `OpLine`. -/
def isLineDirective (sid : Nat) (insn : Instruction) : Bool :=
  (insn.Opcode == opExtInst && insn.Word 3 == sid &&
    insn.Word 4 == nonSemanticShaderDebugInfo100DebugLine) || (insn.Opcode == opLine)

/-- Declaratively, instruction `i` of the stream is a line directive with
respect to the debug-info import in effect just before it. -/
def isLineDirectiveAt (instructions : List Instruction) (i : Nat) : Bool :=
  isLineDirective (setIdAt (instructions.take i)) (instructions.getD i default)

/-- The declarative reading of the tracked directive: `d` sits at some index
`i` of the stream, is a line directive there, and no later instruction of
the stream is an `OpFunctionEnd` (which would reset the tracker) or another
line directive (which would supersede `d`). -/
def TrackedDirectiveSpec (l : List Instruction) (d : Instruction) : Prop :=
  ∃ i, i < l.length ∧ l.getD i default = d ∧ isLineDirectiveAt l i = true ∧
    ∀ j, j < l.length → i < j →
      (l.getD j default).Opcode ≠ opFunctionEnd ∧ isLineDirectiveAt l j = false

/-! ## Helper lemmas -/

/-- Lemma: `Add` on a present fingerprint is a no-op (`emplace` semantics). -/
theorem SpirvCache.Add_of_isSome {c : SpirvCache} {h : Nat} {v : Words}
    (hs : (c.Get h).isSome) : c.Add h v = c := by
  simp [SpirvCache.Add, hs]

/-- Lemma: `Get` after `Add`: an existing entry wins, otherwise the added entry is
visible exactly under its own fingerprint. -/
theorem SpirvCache.Get_Add (c : SpirvCache) (h h' : Nat) (v : Words) :
    (c.Add h' v).Get h = (c.Get h).or (if h = h' then some v else none) := by
  by_cases hp : (c.Get h').isSome
  · rw [SpirvCache.Add_of_isSome hp]
    by_cases he : h = h'
    · subst he
      obtain ⟨w, hw⟩ := Option.isSome_iff_exists.mp hp
      simp [hw]
    · simp [he]
  · have hc : c.Get h' = none := Option.not_isSome_iff_eq_none.mp hp
    have hadd : c.Add h' v = ⟨(h', v) :: c.spirvShaders⟩ := by
      simp [SpirvCache.Add, hp]
    rw [hadd]
    by_cases he : h = h'
    · subst he
      have hc2 : List.lookup h c.spirvShaders = none := hc
      simp [SpirvCache.Get, List.lookup_cons, hc2]
    · have hb : (h == h') = false := by simp [he]
      simp [SpirvCache.Get, List.lookup_cons, he, hb]

/-- Running a trace of `Add` operations from an arbitrary cache. -/
def runCacheAddsFrom (c : SpirvCache) (ops : List (Nat × Words)) : SpirvCache :=
  ops.foldl (fun acc op => acc.Add op.1 op.2) c

/-- Running a trace of `Add` operations from the empty cache. -/
def runCacheAdds (ops : List (Nat × Words)) : SpirvCache :=
  runCacheAddsFrom SpirvCache.empty ops

/-- After a trace of adds, `Get` sees the pre-existing entry if any,
otherwise the first add of the trace with the fingerprint. -/
theorem runCacheAddsFrom_Get (ops : List (Nat × Words)) (c : SpirvCache) (h : Nat) :
    (runCacheAddsFrom c ops).Get h =
      (c.Get h).or (((ops.find? (fun op => op.1 = h)).map Prod.snd)) := by
  induction ops generalizing c with
  | nil => simp [runCacheAddsFrom]
  | cons op rest ih =>
    have step : runCacheAddsFrom c (op :: rest) = runCacheAddsFrom (c.Add op.1 op.2) rest := rfl
    rw [step, ih, SpirvCache.Get_Add]
    rcases heq : decide (op.1 = h) with _ | _
    · have hne : op.1 ≠ h := of_decide_eq_false heq
      have hne2 : h ≠ op.1 := Ne.symm hne
      simp [List.find?_cons, heq, hne2]
    · have he : op.1 = h := of_decide_eq_true heq
      subst he
      simp [List.find?_cons, heq, Option.or_assoc]

/-- Membership after folding `erase` over a list of snapshot entries: the
entry was already present and its key was not among the erased ones. -/
theorem mem_foldl_erase {l r : Registry} {id : Nat} {e : InstrumentedShader}
    (hmem : (id, e) ∈ l.foldl (fun acc kv => acc.erase kv.1) r) :
    (id, e) ∈ r ∧ ∀ kv ∈ l, kv.1 ≠ id := by
  induction l generalizing r with
  | nil =>
    refine ⟨hmem, ?_⟩
    intro kv hkv
    simp at hkv
  | cons a rest ih =>
    have step : (a :: rest).foldl (fun acc kv => acc.erase kv.1) r
        = rest.foldl (fun acc kv => acc.erase kv.1) (r.erase a.1) := rfl
    rw [step] at hmem
    obtain ⟨hin, hrest⟩ := ih hmem
    rw [Registry.erase, List.mem_filter] at hin
    refine ⟨hin.1, ?_⟩
    intro kv hkv
    rcases List.mem_cons.mp hkv with hkva | hkvr
    · subst hkva
      have hid : id ≠ kv.1 := by simpa using hin.2
      exact fun hcontra => hid hcontra.symm
    · exact hrest kv hkvr

/-- The adapted set-layout array `l ++ replicate (n - l.length) d ++ [e]`
(with `l.length ≤ n`): its length and the value at each position. -/
theorem adaptedList_spec (l : List Nat) (n d e : Nat) (h : l.length ≤ n) :
    (l ++ List.replicate (n - l.length) d ++ [e]).length = n + 1 ∧
    (∀ i, i < l.length →
      (l ++ List.replicate (n - l.length) d ++ [e]).getD i 0 = l.getD i 0) ∧
    (∀ i, l.length ≤ i → i < n →
      (l ++ List.replicate (n - l.length) d ++ [e]).getD i 0 = d) ∧
    (l ++ List.replicate (n - l.length) d ++ [e]).getD n 0 = e := by
  refine ⟨?_, ?_, ?_, ?_⟩
  · simp
    omega
  · intro i hi
    simp [List.getD_eq_getElem?_getD, List.append_assoc, List.getElem?_append, hi]
  · intro i hge hlt
    have h1 : ¬ i < l.length := by omega
    have h2 : i - l.length < n - l.length := by omega
    simp [List.getD_eq_getElem?_getD, List.append_assoc, List.getElem?_append,
      List.getElem?_replicate, h1, h2]
  · have hnl : ¬ n < l.length := by omega
    have h2 : ¬ n - l.length < n - l.length := by omega
    simp [List.getD_eq_getElem?_getD, List.append_assoc, List.getElem?_append,
      List.getElem?_replicate, hnl, h2, Nat.sub_self]

/-! ## Claim theorems -/

/-- C10: `ReserveBindingSlot` leaves the limits unchanged (and warns nothing)
when the device reports `maxBoundDescriptorSets == 0`; with the
reserve-binding-slot feature enabled it decrements the limit by exactly 1
when it exceeds 1 (the adjusted limit stays positive), and when the limit is
1 it emits a warning and leaves the value unchanged. -/
theorem reserveBindingSlot_spec (reserveEnabled : Bool) (maxSets : Nat) :
    (maxSets = 0 → reserveBindingSlot reserveEnabled maxSets = (maxSets, [])) ∧
    (reserveEnabled = true → 1 < maxSets →
      (reserveBindingSlot reserveEnabled maxSets).1 = maxSets - 1 ∧
        0 < (reserveBindingSlot reserveEnabled maxSets).1) ∧
    (reserveEnabled = true → maxSets = 1 →
      (reserveBindingSlot reserveEnabled maxSets).1 = maxSets ∧
        ReserveWarning.singleSlot ∈ (reserveBindingSlot reserveEnabled maxSets).2) := by
  refine ⟨?_, ?_, ?_⟩
  · intro h0
    subst h0
    simp [reserveBindingSlot]
  · intro hen hgt
    subst hen
    have hne : ¬ maxSets = 0 := by omega
    refine ⟨?_, ?_⟩
    · simp [reserveBindingSlot, hne, hgt]
    · have hr : (reserveBindingSlot true maxSets).1 = maxSets - 1 := by
        simp [reserveBindingSlot, hne, hgt]
      rw [hr]
      omega
  · intro hen h1
    subst hen
    subst h1
    simp [reserveBindingSlot, kMaxAdjustedBoundDescriptorSet]

/-- C10 witness: a device limit of 4 with the feature enabled is adjusted to
3; a limit of 0 is untouched. -/
theorem reserveBindingSlot_spec_witness :
    reserveBindingSlot true 0 = (0, []) ∧
    (reserveBindingSlot true 4).1 = 3 ∧
    (reserveBindingSlot true 1).1 = 1 := by
  refine ⟨(reserveBindingSlot_spec true 0).1 rfl, ?_, ?_⟩
  · have h := ((reserveBindingSlot_spec true 4).2.1 rfl (by decide)).1
    simpa using h
  · exact ((reserveBindingSlot_spec true 1).2.2 rfl rfl).1

/-- C9: for an input word stream whose first word is not the SPIR-V magic
number, `InstrumentShader` returns unchanged (no instrumented output, no
internal error) and writes no dump files, whatever the settings (including
`debug_dump_instrumented_shaders`). -/
theorem instrumentShader_magic_guard_spec (tools : SpirvToolsEnv) (s : GpuAVSettings)
    (st : CoreState) (uid : Nat) (hb : Bool) (input : Words) (w : Nat)
    (hhead : input.head? = some w) (hw : w ≠ spvMagicNumber) :
    instrumentShader tools s st uid hb input = ⟨none, [], st⟩ := by
  have hd : input.headD 0 = w := by
    rw [List.headD_eq_head?_getD, hhead]
    rfl
  have hcond : input.headD 0 ≠ spvMagicNumber := by
    rw [hd]
    exact hw
  rw [instrumentShader, if_pos hcond]

/-- C9 witness: the one-word stream `[0]` with dumping enabled is returned
unchanged with no dumps. -/
theorem instrumentShader_magic_guard_spec_witness :
    instrumentShader
      ⟨fun _ _ _ => ⟨true, true, true, true, true, true, true, []⟩,
        fun _ => true, fun w => some w, fun _ => 0, fun _ => false⟩
      ⟨true, false, true, true, true, false, true, true, true, true, true⟩
      CoreState.init 3 false [0]
      = ⟨none, [], CoreState.init⟩ :=
  instrumentShader_magic_guard_spec _ _ _ _ _ [0] 0 rfl (by decide)

/-- C6: `SpirvCache::Get` returns exactly the vector passed to the first
prior `SpirvCache::Add` with the fingerprint (or nothing when no such add
occurred), and an `Add` on a fingerprint that is already present never
rewrites the entry. -/
theorem spirvCache_first_writer_wins_spec :
    (∀ (c : SpirvCache) (h : Nat) (v : Words),
      (c.Get h).isSome → c.Add h v = c) ∧
    (∀ (ops : List (Nat × Words)) (h : Nat),
      (runCacheAdds ops).Get h = ((ops.find? (fun op => op.1 = h)).map Prod.snd)) := by
  constructor
  · intro c h v hs
    exact SpirvCache.Add_of_isSome hs
  · intro ops h
    have := runCacheAddsFrom_Get ops SpirvCache.empty h
    simpa [runCacheAdds, SpirvCache.Get, SpirvCache.empty] using this

/-- C6 witness: after adds `(5, [1,2])` then `(5, [9])` then `(6, [7])`, the
cache returns `[1,2]` for fingerprint 5 (first writer wins), `[7]` for 6, and
nothing for 8; a duplicate `Add` leaves the cache untouched. -/
theorem spirvCache_first_writer_wins_spec_witness :
    (SpirvCache.Add ⟨[(5, [1, 2])]⟩ 5 [9] = ⟨[(5, [1, 2])]⟩) ∧
    (runCacheAdds [(5, [1, 2]), (5, [9]), (6, [7])]).Get 5 = some [1, 2] ∧
    (runCacheAdds [(5, [1, 2]), (5, [9]), (6, [7])]).Get 8 = none := by
  refine ⟨spirvCache_first_writer_wins_spec.1 ⟨[(5, [1, 2])]⟩ 5 [9] (by decide), ?_, ?_⟩
  · rw [spirvCache_first_writer_wins_spec.2 [(5, [1, 2]), (5, [9]), (6, [7])] 5]
    decide
  · rw [spirvCache_first_writer_wins_spec.2 [(5, [1, 2]), (5, [9]), (6, [7])] 8]
    decide

/-- C3: every adapted layout (pipeline-layout or shader-object creation with
original set-layout count not exceeding the reserved slot) has exactly
`reserved_slot + 1` set layouts: positions `[0, original_count)` hold the
caller's layouts in order, positions `[original_count, reserved_slot)` hold
the shared dummy layout, and position `reserved_slot` holds the
instrumentation set layout. -/
theorem adapted_layout_positions_spec (s : GpuAVSettings) (dev : LayoutDeviceState)
    (ci : PipelineLayoutCreateInfo) (sci : ShaderCreateInfoEXT)
    (hs : s.isSpirvModified = true)
    (hlen : ci.pSetLayouts.length ≤ dev.instrumentationDescSetBindIndex)
    (hlen2 : sci.setLayouts.length ≤ dev.instrumentationDescSetBindIndex) :
    (let r := (preCallRecordCreatePipelineLayout s dev ci).1
     r.pSetLayouts.length = dev.instrumentationDescSetBindIndex + 1 ∧
       (∀ i, i < ci.pSetLayouts.length → r.pSetLayouts.getD i 0 = ci.pSetLayouts.getD i 0) ∧
       (∀ i, ci.pSetLayouts.length ≤ i → i < dev.instrumentationDescSetBindIndex →
         r.pSetLayouts.getD i 0 = dev.dummyDescLayout) ∧
       r.pSetLayouts.getD dev.instrumentationDescSetBindIndex 0 = dev.instrumentationDescLayout) ∧
    (let r2 := (shaderObjectAdaptLayouts dev sci).1
     r2.setLayouts.length = dev.instrumentationDescSetBindIndex + 1 ∧
       (∀ i, i < sci.setLayouts.length → r2.setLayouts.getD i 0 = sci.setLayouts.getD i 0) ∧
       (∀ i, sci.setLayouts.length ≤ i → i < dev.instrumentationDescSetBindIndex →
         r2.setLayouts.getD i 0 = dev.dummyDescLayout) ∧
       r2.setLayouts.getD dev.instrumentationDescSetBindIndex 0 = dev.instrumentationDescLayout) := by
  have hnot : ¬ ci.pSetLayouts.length > dev.instrumentationDescSetBindIndex := by omega
  have hnot2 : ¬ sci.setLayouts.length > dev.instrumentationDescSetBindIndex := by omega
  constructor
  · have hr : (preCallRecordCreatePipelineLayout s dev ci).1.pSetLayouts
        = ci.pSetLayouts
          ++ List.replicate (dev.instrumentationDescSetBindIndex - ci.pSetLayouts.length)
              dev.dummyDescLayout
          ++ [dev.instrumentationDescLayout] := by
      simp [preCallRecordCreatePipelineLayout, hs, hnot]
    simp only [hr]
    exact adaptedList_spec ci.pSetLayouts dev.instrumentationDescSetBindIndex
      dev.dummyDescLayout dev.instrumentationDescLayout hlen
  · have hr : (shaderObjectAdaptLayouts dev sci).1.setLayouts
        = sci.setLayouts
          ++ List.replicate (dev.instrumentationDescSetBindIndex - sci.setLayouts.length)
              dev.dummyDescLayout
          ++ [dev.instrumentationDescLayout] := by
      simp [shaderObjectAdaptLayouts, hnot2]
    simp only [hr]
    exact adaptedList_spec sci.setLayouts dev.instrumentationDescSetBindIndex
      dev.dummyDescLayout dev.instrumentationDescLayout hlen2

/-- C3 witness: reserved slot 3, one caller layout: the adapted arrays are
`[10, dummy, dummy, instr]` for both surfaces. -/
theorem adapted_layout_positions_spec_witness :
    ((preCallRecordCreatePipelineLayout
        ⟨false, false, false, false, false, false, false, false, false, false, true⟩
        ⟨3, 90, 91⟩ ⟨[10]⟩).1.pSetLayouts.length = 3 + 1 ∧
      (preCallRecordCreatePipelineLayout
        ⟨false, false, false, false, false, false, false, false, false, false, true⟩
        ⟨3, 90, 91⟩ ⟨[10]⟩).1.pSetLayouts.getD 3 0 = 91) ∧
    (shaderObjectAdaptLayouts ⟨3, 90, 91⟩ ⟨[5], [10], false⟩).1.setLayouts.getD 1 0 = 90 := by
  have h := adapted_layout_positions_spec
    ⟨false, false, false, false, false, false, false, false, false, false, true⟩
    ⟨3, 90, 91⟩ ⟨[10]⟩ ⟨[5], [10], false⟩ rfl (by decide) (by decide)
  exact ⟨⟨h.1.1, h.1.2.2.2⟩, h.2.2.2.1 1 (by decide) (by decide)⟩

/-- C2 counterexample: with reserved slot 3 and a caller set-layout count of
exactly 3 (count "at least" the reserved slot), the claim says the layout is
not adapted and a warning is emitted; the code adapts the layout (appending
the instrumentation layout) and emits no warning. -/
theorem layout_overflow_boundary_cx :
    (preCallRecordCreatePipelineLayout
        ⟨false, false, false, false, false, false, false, false, false, false, true⟩
        ⟨3, 90, 91⟩ ⟨[10, 11, 12]⟩).1.pSetLayouts = [10, 11, 12, 91] ∧
    (preCallRecordCreatePipelineLayout
        ⟨false, false, false, false, false, false, false, false, false, false, true⟩
        ⟨3, 90, 91⟩ ⟨[10, 11, 12]⟩).2 = false := by
  constructor <;> rfl

/-- C2 (amended: the overflow boundary is strictly greater than the reserved
slot): with SPIR-V modification on, a pipeline-layout creation whose caller
set-layout count exceeds the reserved slot is not adapted and warns; a count
of at most the reserved slot is adapted (no warning, `reserved_slot + 1`
layouts); a pipeline whose layout consumes more sets than the reserved slot
fails `NeedPipelineCreationShaderInstrumentation`, a skipped pipeline keeps an
unmodified create-info copy and empty metadata, and the post-call hook with
empty metadata leaves the registry untouched. -/
theorem layout_overflow_spec (tools : SpirvToolsEnv) (drv : DriverEnv) (gpl : Option GplEnv)
    (s : GpuAVSettings) (dev : LayoutDeviceState) (ci : PipelineLayoutCreateInfo)
    (p : PipelineState) (reg : Registry) (st : InstrumentorState)
    (newCI : PipelineCreateInfoModel)
    (hs : s.isSpirvModified = true) :
    (ci.pSetLayouts.length > dev.instrumentationDescSetBindIndex →
      preCallRecordCreatePipelineLayout s dev ci = (ci, true)) ∧
    (ci.pSetLayouts.length ≤ dev.instrumentationDescSetBindIndex →
      (preCallRecordCreatePipelineLayout s dev ci).2 = false ∧
        (preCallRecordCreatePipelineLayout s dev ci).1.pSetLayouts.length
          = dev.instrumentationDescSetBindIndex + 1) ∧
    (∀ n, p.layoutSetLayoutsSize = some n → n > dev.instrumentationDescSetBindIndex →
      needPipelineCreationShaderInstrumentation dev.instrumentationDescSetBindIndex p = false) ∧
    (needPipelineCreationShaderInstrumentation dev.instrumentationDescSetBindIndex p = false →
      preCallPerPipeline tools drv gpl s dev st p newCI = (st, newCI, [], 0)) ∧
    (postCallRecordPipelineCreationShaderInstrumentation reg p [] = reg) := by
  refine ⟨?_, ?_, ?_, ?_, ?_⟩
  · intro hgt
    simp [preCallRecordCreatePipelineLayout, hs, hgt]
  · intro hle
    have hnot : ¬ ci.pSetLayouts.length > dev.instrumentationDescSetBindIndex := by omega
    constructor
    · simp [preCallRecordCreatePipelineLayout, hs, hnot]
    · have hr : (preCallRecordCreatePipelineLayout s dev ci).1.pSetLayouts
          = ci.pSetLayouts
            ++ List.replicate (dev.instrumentationDescSetBindIndex - ci.pSetLayouts.length)
                dev.dummyDescLayout
            ++ [dev.instrumentationDescLayout] := by
        simp [preCallRecordCreatePipelineLayout, hs, hnot]
      rw [hr]
      simp
      omega
  · intro n hn hgt
    simp only [needPipelineCreationShaderInstrumentation, hn]
    by_cases h1 : p.stageStates.isEmpty <;> by_cases h2 : p.createFlagsLibraryBit <;>
      by_cases h3 : p.activeSlots.contains dev.instrumentationDescSetBindIndex <;>
        simp [h1, h2, h3, hgt]
  · intro hneed
    simp [preCallPerPipeline, hneed]
  · simp [postCallRecordPipelineCreationShaderInstrumentation]

/-- C2 witness: slot 3; a four-layout creation warns and is left alone; a
pipeline whose layout consumes 4 sets is skipped and inserts nothing. -/
theorem layout_overflow_spec_witness :
    preCallRecordCreatePipelineLayout
      ⟨false, false, false, false, false, false, false, false, false, false, true⟩
      ⟨3, 90, 91⟩ ⟨[10, 11, 12, 13]⟩ = (⟨[10, 11, 12, 13]⟩, true) ∧
    needPipelineCreationShaderInstrumentation 3
      ⟨7, [⟨0, [], 0, none, false⟩], false, false, [], some 4, false⟩ = false ∧
    postCallRecordPipelineCreationShaderInstrumentation []
      ⟨7, [⟨0, [], 0, none, false⟩], false, false, [], some 4, false⟩ [] = [] := by
  have h := layout_overflow_spec
    ⟨fun _ _ _ => ⟨false, false, false, false, false, false, false, []⟩,
      fun _ => true, fun w => some w, fun _ => 0, fun _ => false⟩
    ⟨fun _ => none⟩ none
    ⟨false, false, false, false, false, false, false, false, false, false, true⟩
    ⟨3, 90, 91⟩ ⟨[10, 11, 12, 13]⟩
    ⟨7, [⟨0, [], 0, none, false⟩], false, false, [], some 4, false⟩
    [] ⟨CoreState.init, SpirvCache.empty, 0, [], []⟩ ⟨[]⟩ rfl
  exact ⟨h.1 (by decide), h.2.2.1 4 rfl (by decide), h.2.2.2.2⟩

/-- C4: when `IsSpirvModified()` is false, every creation entry point passes
the application's creation data to the driver unchanged: no set-layout array
is rewritten and no shader binary is substituted (and no instrumentation
work happens). -/
theorem pass_through_on_disabled_spec (tools : SpirvToolsEnv) (drv : DriverEnv)
    (gpl : GplEnv) (s : GpuAVSettings) (dev : LayoutDeviceState) (st : InstrumentorState)
    (ci : PipelineLayoutCreateInfo) (cis : List ShaderCreateInfoEXT)
    (itemsG itemsC itemsNV itemsKHR : List (PipelineState × PipelineCreateInfoModel))
    (hs : s.isSpirvModified = false) :
    preCallRecordCreatePipelineLayout s dev ci = (ci, false) ∧
    preCallRecordCreateShadersEXT tools s dev st cis = (st, cis, [], 0) ∧
    preCallRecordCreateGraphicsPipelines tools drv gpl s dev st itemsG
      = (st, itemsG.map (fun it => it.2), [], 0) ∧
    preCallRecordCreateComputePipelines tools drv s dev st itemsC
      = (st, itemsC.map (fun it => it.2), [], 0) ∧
    preCallRecordCreateRayTracingPipelinesNV tools drv s dev st itemsNV
      = (st, itemsNV.map (fun it => it.2), [], 0) ∧
    preCallRecordCreateRayTracingPipelinesKHR tools drv s dev st itemsKHR
      = (st, itemsKHR.map (fun it => it.2), [], 0) := by
  have hsb : s.isSpirvModified ≠ true := by simp [hs]
  refine ⟨?_, ?_, ?_, ?_, ?_, ?_⟩
  · simp [preCallRecordCreatePipelineLayout, hs]
  · simp [preCallRecordCreateShadersEXT, hs]
  · simp [preCallRecordCreateGraphicsPipelines, hs]
  · simp [preCallRecordCreateComputePipelines, hs]
  · simp [preCallRecordCreateRayTracingPipelinesNV, preCallRecordCreateComputePipelines, hs]
  · simp [preCallRecordCreateRayTracingPipelinesKHR, preCallRecordCreateComputePipelines, hs]

/-- C4 witness: with `IsSpirvModified()` false, a concrete layout creation
and a concrete graphics-pipeline creation are handed through unchanged. -/
theorem pass_through_on_disabled_spec_witness :
    preCallRecordCreatePipelineLayout
      ⟨true, true, true, true, true, true, true, true, true, true, false⟩
      ⟨3, 90, 91⟩ ⟨[10, 11]⟩ = (⟨[10, 11]⟩, false) ∧
    preCallRecordCreateGraphicsPipelines
      ⟨fun _ _ _ => ⟨false, false, false, false, false, false, false, []⟩,
        fun _ => true, fun w => some w, fun _ => 0, fun _ => false⟩
      ⟨fun _ => none⟩ ⟨fun st _ ci => (st, ci, [], 0)⟩
      ⟨true, true, true, true, true, true, true, true, true, true, false⟩
      ⟨3, 90, 91⟩ ⟨CoreState.init, SpirvCache.empty, 0, [], []⟩
      [(⟨7, [⟨0, [spvMagicNumber], 0, none, false⟩], false, false, [], some 1, false⟩,
        ⟨[⟨0, 5, none⟩]⟩)]
      = (⟨CoreState.init, SpirvCache.empty, 0, [], []⟩, [⟨[⟨0, 5, none⟩]⟩], [], 0) := by
  have h := pass_through_on_disabled_spec
    ⟨fun _ _ _ => ⟨false, false, false, false, false, false, false, []⟩,
      fun _ => true, fun w => some w, fun _ => 0, fun _ => false⟩
    ⟨fun _ => none⟩ ⟨fun st _ ci => (st, ci, [], 0)⟩
    ⟨true, true, true, true, true, true, true, true, true, true, false⟩
    ⟨3, 90, 91⟩ ⟨CoreState.init, SpirvCache.empty, 0, [], []⟩
    ⟨[10, 11]⟩ []
    [(⟨7, [⟨0, [spvMagicNumber], 0, none, false⟩], false, false, [], some 1, false⟩,
      ⟨[⟨0, 5, none⟩]⟩)]
    [] [] [] rfl
  exact ⟨h.1, h.2.2.1⟩

/-- A concrete SPIRV-Tools environment whose passes modify the module and
whose validator rejects the instrumented binary. -/
def rewriterFatalTools : SpirvToolsEnv :=
  ⟨fun _ _ _ => ⟨true, true, true, true, true, true, true, [7, 7]⟩,
    fun _ => false, fun w => some w, fun _ => 0, fun _ => false⟩

/-- Settings with re-validation of instrumented shaders enabled. -/
def rewriterFatalSettings : GpuAVSettings :=
  ⟨false, false, false, true, false, false, true, false, false, false, true⟩

/-- C1 counterexample: when re-validation of the instrumented shader fails,
`InstrumentShader` does return unchanged, but `InternalError` puts the core
into the aborted state and releases the dispatch object — the core does not
remain live for subsequent shaders. -/
theorem rewriter_fatal_keeps_core_live_cx :
    (instrumentShader rewriterFatalTools rewriterFatalSettings CoreState.init 5 false
        [spvMagicNumber]).result = none ∧
    (instrumentShader rewriterFatalTools rewriterFatalSettings CoreState.init 5 false
        [spvMagicNumber]).core.aborted = true ∧
    (instrumentShader rewriterFatalTools rewriterFatalSettings CoreState.init 5 false
        [spvMagicNumber]).core.dispatchReleased = true := by
  decide

/-- C1 (amended): if re-validation of the instrumented shader or the
dead-code-elimination pass fails, `InstrumentShader` reports an internal
error and returns unchanged (the original binary is used), and the core
transitions to the aborted state (dispatch released), so subsequent shaders
are no longer instrumented. -/
theorem instrumentShader_rewriter_fatal_spec (tools : SpirvToolsEnv) (s : GpuAVSettings)
    (st : CoreState) (uid : Nat) (hb : Bool) (input : Words)
    (hmagic : input.headD 0 = spvMagicNumber)
    (hmod : instrumentationModified s (tools.moduleOf uid hb input) = true)
    (hfail :
      (s.debugValidateInstrumentedShaders = true ∧
        tools.validOk (tools.moduleOf uid hb input).toBinary = false) ∨
      ((s.debugValidateInstrumentedShaders = false ∨
          tools.validOk (tools.moduleOf uid hb input).toBinary = true) ∧
        s.debugPrintfOnly = false ∧
        tools.dce (tools.moduleOf uid hb input).toBinary = none)) :
    (instrumentShader tools s st uid hb input).result = none ∧
    (instrumentShader tools s st uid hb input).core = internalError st := by
  have hmagic2 : (input.head?).getD 0 = spvMagicNumber := by
    rw [← List.headD_eq_head?_getD]
    exact hmagic
  rcases hfail with ⟨hval, hok⟩ | ⟨hv, hpo, hdce⟩
  · constructor <;> simp [instrumentShader, hmagic2, hmod, hval, hok]
  · rcases hv with hv | hv
    · constructor <;> simp [instrumentShader, hmagic2, hmod, hv, hpo, hdce]
    · constructor <;> simp [instrumentShader, hmagic2, hmod, hv, hpo, hdce]

/-- C1 witness: the amended claim evaluated on the failing-validation
environment. -/
theorem instrumentShader_rewriter_fatal_spec_witness :
    (instrumentShader rewriterFatalTools rewriterFatalSettings CoreState.init 5 false
        [spvMagicNumber]).result = none ∧
    (instrumentShader rewriterFatalTools rewriterFatalSettings CoreState.init 5 false
        [spvMagicNumber]).core = internalError CoreState.init :=
  instrumentShader_rewriter_fatal_spec rewriterFatalTools rewriterFatalSettings
    CoreState.init 5 false [spvMagicNumber] rfl (by decide) (Or.inl ⟨rfl, rfl⟩)

/-- C7: after the destroy hook for pipeline P completes, no registry record
has `pipeline == P`; after the destroy hook for shader object S completes,
no record has `shader_object == S`. -/
theorem destroy_sweeps_spec (r : Registry) (pipeline shader : Nat) :
    (∀ id e, (id, e) ∈ preCallRecordDestroyPipeline r pipeline → e.pipeline ≠ pipeline) ∧
    (∀ id e, (id, e) ∈ preCallRecordDestroyShaderEXT r shader → e.shaderObject ≠ shader) := by
  constructor
  · intro id e hmem hcontra
    simp only [preCallRecordDestroyPipeline] at hmem
    obtain ⟨hin, hkeys⟩ := mem_foldl_erase hmem
    have hsnap : (id, e) ∈ r.snapshot (fun entry => entry.pipeline = pipeline) := by
      rw [Registry.snapshot, List.mem_filter]
      exact ⟨hin, by simp [hcontra]⟩
    exact hkeys (id, e) hsnap rfl
  · intro id e hmem hcontra
    simp only [preCallRecordDestroyShaderEXT] at hmem
    obtain ⟨hin, hkeys⟩ := mem_foldl_erase hmem
    have hsnap : (id, e) ∈ r.snapshot (fun entry => entry.shaderObject = shader) := by
      rw [Registry.snapshot, List.mem_filter]
      exact ⟨hin, by simp [hcontra]⟩
    exact hkeys (id, e) hsnap rfl

/-- C7 witness: destroying pipeline 7 keeps only the record owned by
pipeline 5; destroying shader object 9 keeps only the record owned by 4. -/
theorem destroy_sweeps_spec_witness :
    (⟨5, 0, 0, []⟩ : InstrumentedShader).pipeline ≠ 7 ∧
    (⟨0, 0, 4, []⟩ : InstrumentedShader).shaderObject ≠ 9 :=
  ⟨(destroy_sweeps_spec [(1, ⟨5, 0, 0, []⟩), (2, ⟨7, 0, 0, []⟩)] 7 9).1
      1 ⟨5, 0, 0, []⟩ (by decide),
    (destroy_sweeps_spec [(3, ⟨0, 0, 4, []⟩), (4, ⟨0, 0, 9, []⟩)] 7 9).2
      3 ⟨0, 0, 4, []⟩ (by decide)⟩

/-- A SPIRV-Tools environment whose passes never modify the module (so the
rewriter reports "unchanged"). -/
def cacheUnmodifiedTools : SpirvToolsEnv :=
  ⟨fun _ _ _ => ⟨false, false, false, false, false, false, false, []⟩,
    fun _ => true, fun w => some w, fun _ => 7, fun _ => false⟩

/-- Settings with the instrumented-shader cache enabled. -/
def cacheSettingsOn : GpuAVSettings :=
  ⟨true, false, false, false, false, false, true, false, false, false, true⟩

/-- First shader-object instrumentation of the same input. -/
def cacheCxFirst : ShaderObjectInstrResult :=
  preCallRecordShaderObjectInstrumentation cacheUnmodifiedTools cacheSettingsOn
    ⟨CoreState.init, SpirvCache.empty, 0, [], []⟩ ⟨[spvMagicNumber], [], false⟩

/-- Second shader-object instrumentation of the same input, from the state
left by the first. -/
def cacheCxSecond : ShaderObjectInstrResult :=
  preCallRecordShaderObjectInstrumentation cacheUnmodifiedTools cacheSettingsOn
    cacheCxFirst.state ⟨[spvMagicNumber], [], false⟩

/-- C5 counterexample: with the cache on, when the pass pipeline reports no
modification nothing is added to the cache, so instrumenting the same input
twice invokes `InstrumentShader` twice — the second invocation does not hit
the cache, contradicting "the pass pipeline is executed only once". -/
theorem cache_unmodified_two_executions_cx :
    cacheCxFirst.instrumentShaderCalls = 1 ∧ cacheCxSecond.instrumentShaderCalls = 1 := by
  decide

/-- C5 (amended: provided the first invocation's instrumentation succeeds):
with the cache on and a fresh fingerprint, if `InstrumentShader` produces an
instrumented binary on the first invocation, then both invocations
substitute the same bytes, the first runs the pass pipeline once, and the
second hits the cache and skips pass execution.  (When the rewriter returns
unchanged, nothing is cached and the pass pipeline runs again — see the
counterexample.) -/
theorem cache_idempotence_spec (tools : SpirvToolsEnv) (s : GpuAVSettings)
    (st : InstrumentorState) (ci : ShaderCreateInfoEXT) (v : Words)
    (hcache : s.cacheInstrumentedShaders = true)
    (hsel : s.selectInstrumentedShaders = false)
    (hmiss : st.cache.Get (tools.shaderHash ci.pCode) = none)
    (hpass : (instrumentShader tools s st.core (tools.shaderHash ci.pCode)
        (hasBindlessDescriptorsShaderCI tools ci) ci.pCode).result = some v) :
    (preCallRecordShaderObjectInstrumentation tools s st ci).createInfo.pCode = v ∧
    (preCallRecordShaderObjectInstrumentation tools s
        (preCallRecordShaderObjectInstrumentation tools s st ci).state ci).createInfo.pCode
      = v ∧
    (preCallRecordShaderObjectInstrumentation tools s st ci).instrumentShaderCalls = 1 ∧
    (preCallRecordShaderObjectInstrumentation tools s
        (preCallRecordShaderObjectInstrumentation tools s st ci).state ci).instrumentShaderCalls
      = 0 := by
  have hr1 : preCallRecordShaderObjectInstrumentation tools s st ci
      = ⟨⟨(instrumentShader tools s st.core (tools.shaderHash ci.pCode)
            (hasBindlessDescriptorsShaderCI tools ci) ci.pCode).core,
          st.cache.Add (tools.shaderHash ci.pCode) v,
          st.uniqueShaderModuleId, st.selectedInstrumentedShaders, st.registry⟩,
        { ci with pCode := v }, ⟨v, tools.shaderHash ci.pCode⟩, 1⟩ := by
    simp [preCallRecordShaderObjectInstrumentation, hsel, hcache, hmiss, hpass]
  have hget2 : (st.cache.Add (tools.shaderHash ci.pCode) v).Get (tools.shaderHash ci.pCode)
      = some v := by
    rw [SpirvCache.Get_Add, hmiss]
    simp
  refine ⟨?_, ?_, ?_, ?_⟩
  · rw [hr1]
  · rw [hr1]
    simp [preCallRecordShaderObjectInstrumentation, hsel, hcache, hget2]
  · rw [hr1]
  · rw [hr1]
    simp [preCallRecordShaderObjectInstrumentation, hsel, hcache, hget2]

/-- A SPIRV-Tools environment whose bindless pass modifies the module and
whose validator and DCE succeed. -/
def cacheHitTools : SpirvToolsEnv :=
  ⟨fun _ _ _ => ⟨true, false, false, false, false, false, false, [42]⟩,
    fun _ => true, fun w => some w, fun _ => 7, fun _ => false⟩

/-- C5 witness: with the cache on and a successfully instrumented shader,
both invocations substitute `[42]` and only the first runs the pipeline. -/
theorem cache_idempotence_spec_witness :
    (preCallRecordShaderObjectInstrumentation cacheHitTools cacheSettingsOn
        ⟨CoreState.init, SpirvCache.empty, 0, [], []⟩
        ⟨[spvMagicNumber], [], false⟩).createInfo.pCode = [42] ∧
    (preCallRecordShaderObjectInstrumentation cacheHitTools cacheSettingsOn
        (preCallRecordShaderObjectInstrumentation cacheHitTools cacheSettingsOn
          ⟨CoreState.init, SpirvCache.empty, 0, [], []⟩
          ⟨[spvMagicNumber], [], false⟩).state
        ⟨[spvMagicNumber], [], false⟩).createInfo.pCode = [42] ∧
    (preCallRecordShaderObjectInstrumentation cacheHitTools cacheSettingsOn
        ⟨CoreState.init, SpirvCache.empty, 0, [], []⟩
        ⟨[spvMagicNumber], [], false⟩).instrumentShaderCalls = 1 ∧
    (preCallRecordShaderObjectInstrumentation cacheHitTools cacheSettingsOn
        (preCallRecordShaderObjectInstrumentation cacheHitTools cacheSettingsOn
          ⟨CoreState.init, SpirvCache.empty, 0, [], []⟩
          ⟨[spvMagicNumber], [], false⟩).state
        ⟨[spvMagicNumber], [], false⟩).instrumentShaderCalls = 0 :=
  cache_idempotence_spec cacheHitTools cacheSettingsOn
    ⟨CoreState.init, SpirvCache.empty, 0, [], []⟩ ⟨[spvMagicNumber], [], false⟩ [42]
    rfl rfl (by decide) (by decide)

/-! ## Lemmas for the diagnostic source-recovery walk -/

/-- The fold of the walk over a list, from the initial state. -/
def trackState (l : List Instruction) : LineTrack :=
  l.foldl lineTrackStep LineTrack.init

/-- One step never changes the import id except on a matching
`OpExtInstImport`. -/
theorem lineTrackStep_setId (st : LineTrack) (a : Instruction) :
    (lineTrackStep st a).setId =
      if a.Opcode = opExtInstImport ∧ a.literalString = nonSemanticShaderDebugInfoName
      then a.ResultId else st.setId := by
  by_cases h1 : a.Opcode = opExtInstImport ∧ a.literalString = nonSemanticShaderDebugInfoName
  · simp only [lineTrackStep, if_pos h1]
    split_ifs <;> rfl
  · simp only [lineTrackStep, if_neg h1]
    split_ifs <;> rfl

/-- One step's effect on the tracked directive: a line directive (with
respect to the current import id) is tracked, an `OpFunctionEnd` resets the
tracker, anything else leaves it alone. -/
theorem lineTrackStep_lastLineInst (st : LineTrack) (a : Instruction) :
    (lineTrackStep st a).lastLineInst =
      if isLineDirective st.setId a = true then some a
      else if a.Opcode = opFunctionEnd then none
      else st.lastLineInst := by
  by_cases himp : a.Opcode = opExtInstImport ∧ a.literalString = nonSemanticShaderDebugInfoName
  · have h11 : a.Opcode = opExtInstImport := himp.1
    have hne12 : ¬ (a.Opcode = opExtInst ∧ a.Word 3 = a.ResultId ∧
        a.Word 4 = nonSemanticShaderDebugInfo100DebugLine) := by
      intro hcon
      rw [h11] at hcon
      exact absurd hcon.1 (by decide)
    have hne8 : ¬ a.Opcode = opLine := by
      rw [h11]
      decide
    have hne56 : ¬ a.Opcode = opFunctionEnd := by
      rw [h11]
      decide
    have hdir : isLineDirective st.setId a = false := by
      simp [isLineDirective, h11, opExtInstImport, opExtInst, opLine]
    simp only [lineTrackStep, if_pos himp, if_neg hne12, if_neg hne8, if_neg hne56, hdir]
    simp
  · simp only [lineTrackStep, if_neg himp]
    by_cases hdir : a.Opcode = opExtInst ∧ a.Word 3 = st.setId ∧
        a.Word 4 = nonSemanticShaderDebugInfo100DebugLine
    · have hd : isLineDirective st.setId a = true := by
        simp [isLineDirective, hdir.1, hdir.2.1, hdir.2.2]
      simp [if_pos hdir, hd]
    · by_cases hline : a.Opcode = opLine
      · have hd : isLineDirective st.setId a = true := by
          simp [isLineDirective, hline]
        simp [if_neg hdir, hline, hd]
      · have hd : isLineDirective st.setId a = false := by
          rw [Bool.eq_false_iff]
          intro hcon
          unfold isLineDirective at hcon
          simp only [Bool.or_eq_true, Bool.and_eq_true, beq_iff_eq] at hcon
          rcases hcon with ⟨⟨hc1, hc2⟩, hc3⟩ | hc
          · exact hdir ⟨hc1, hc2, hc3⟩
          · exact hline hc
        by_cases hend : a.Opcode = opFunctionEnd
        · simp [if_neg hdir, hline, hend, hd, opFunctionEnd, opExtInst, opLine]
        · simp [if_neg hdir, hline, hend, hd]

/-- The break-at-index loop of `FindShaderSource` equals the forward fold
over the prefix up to and including the requested index. -/
theorem findShaderSourceLoop_eq_foldl (l : List Instruction) (pos : Nat) (st : LineTrack) :
    findShaderSourceLoop l pos st = (l.take (pos + 1)).foldl lineTrackStep st := by
  induction l generalizing pos st with
  | nil => simp [findShaderSourceLoop]
  | cons a rest ih =>
    rcases pos with _ | k
    · simp [findShaderSourceLoop]
    · simp only [findShaderSourceLoop]
      rw [if_neg (by omega : ¬ k + 1 = 0)]
      rw [ih]
      simp [List.take_succ_cons]

/-- Appending one instruction extends the fold by one step. -/
theorem trackState_append (l : List Instruction) (a : Instruction) :
    trackState (l ++ [a]) = lineTrackStep (trackState l) a := by
  simp [trackState, List.foldl_append]

/-- The fold's import id is `setIdAt`. -/
theorem trackState_setId (l : List Instruction) : (trackState l).setId = setIdAt l := rfl

/-- Lemma: `getD` into an extended stream, below the old length. -/
theorem getD_append_lt {l : List Instruction} {a : Instruction} {i : Nat}
    (h : i < l.length) : (l ++ [a]).getD i default = l.getD i default := by
  simp [List.getD_eq_getElem?_getD, List.getElem?_append, h]

/-- Lemma: `getD` into an extended stream, at the old length. -/
theorem getD_append_len (l : List Instruction) (a : Instruction) :
    (l ++ [a]).getD l.length default = a := by
  simp [List.getD_eq_getElem?_getD, List.getElem?_append]

/-- Being a line directive at an index below the old length is unaffected by
appending an instruction. -/
theorem isLineDirectiveAt_append_lt {l : List Instruction} {a : Instruction} {i : Nat}
    (h : i < l.length) : isLineDirectiveAt (l ++ [a]) i = isLineDirectiveAt l i := by
  unfold isLineDirectiveAt
  rw [List.take_append_of_le_length (by omega), getD_append_lt h]

/-- Being a line directive at the old length of an extended stream. -/
theorem isLineDirectiveAt_append_len (l : List Instruction) (a : Instruction) :
    isLineDirectiveAt (l ++ [a]) l.length = isLineDirective (setIdAt l) a := by
  unfold isLineDirectiveAt
  rw [List.take_append_of_le_length (by omega), getD_append_len, List.take_length]

/-- The fold's tracked directive is exactly the declarative "most recent line
directive with no later reset or directive". -/
theorem trackState_lastLineInst_iff (l : List Instruction) (d : Instruction) :
    (trackState l).lastLineInst = some d ↔ TrackedDirectiveSpec l d := by
  induction l using List.reverseRecOn with
  | nil =>
    constructor
    · intro h
      simp [trackState, LineTrack.init] at h
    · rintro ⟨i, hi, _⟩
      simp at hi
  | append_singleton l a ih =>
    have hlenapp : (l ++ [a]).length = l.length + 1 := by simp
    rw [trackState_append, lineTrackStep_lastLineInst, trackState_setId]
    by_cases hdir : isLineDirective (setIdAt l) a = true
    · rw [if_pos hdir]
      constructor
      · intro h
        have hda : a = d := by simpa using h
        refine ⟨l.length, by omega, ?_, ?_, ?_⟩
        · rw [getD_append_len]
          exact hda
        · rw [isLineDirectiveAt_append_len]
          exact hdir
        · intro j hj hlt
          exfalso
          omega
      · rintro ⟨i, hi, hgd, hdi, hafter⟩
        by_cases hil : i < l.length
        · exfalso
          have h2 := hafter l.length (by omega) hil
          rw [isLineDirectiveAt_append_len] at h2
          rw [h2.2] at hdir
          exact absurd hdir (by decide)
        · have hieq : i = l.length := by omega
          rw [hieq, getD_append_len] at hgd
          rw [hgd]
    · rw [if_neg hdir]
      by_cases hend : a.Opcode = opFunctionEnd
      · rw [if_pos hend]
        constructor
        · intro h
          simp at h
        · rintro ⟨i, hi, hgd, hdi, hafter⟩
          exfalso
          by_cases hil : i < l.length
          · have h2 := hafter l.length (by omega) hil
            rw [getD_append_len] at h2
            exact h2.1 hend
          · have hieq : i = l.length := by omega
            rw [hieq, isLineDirectiveAt_append_len] at hdi
            exact hdir hdi
      · rw [if_neg hend]
        rw [ih]
        constructor
        · rintro ⟨i, hi, hgd, hdi, hafter⟩
          refine ⟨i, by omega, ?_, ?_, ?_⟩
          · rw [getD_append_lt hi]
            exact hgd
          · rw [isLineDirectiveAt_append_lt hi]
            exact hdi
          · intro j hj hlt
            by_cases hjl : j < l.length
            · have h2 := hafter j hjl hlt
              rw [getD_append_lt hjl, isLineDirectiveAt_append_lt hjl]
              exact h2
            · have hjeq : j = l.length := by omega
              rw [hjeq, getD_append_len, isLineDirectiveAt_append_len]
              exact ⟨hend, by simpa using hdir⟩
        · rintro ⟨i, hi, hgd, hdi, hafter⟩
          by_cases hil : i < l.length
          · refine ⟨i, hil, ?_, ?_, ?_⟩
            · rw [getD_append_lt hil] at hgd
              exact hgd
            · rw [isLineDirectiveAt_append_lt hil] at hdi
              exact hdi
            · intro j hj hlt
              have h2 := hafter j (by omega) hlt
              rw [getD_append_lt hj, isLineDirectiveAt_append_lt hj] at h2
              exact h2
          · exfalso
            have hieq : i = l.length := by omega
            rw [hieq, isLineDirectiveAt_append_len] at hdi
            exact hdir hdi

/-- C8: the diagnostic source-line recovery walks the instruction stream
forward from the start up to the requested index (the break-loop equals the
forward fold that tracks the most recent `OpLine` / `DebugLine` and resets at
every `OpFunctionEnd`); it emits source information exactly when a directive
is in scope — the most recent line directive of the prefix with no later
`OpFunctionEnd` or directive — and the "Unable to source" message
otherwise. -/
theorem findShaderSource_spec (instructions : List Instruction) (position : Nat) :
    findShaderSourceTracked instructions position = specWalkTracked instructions position ∧
    (findShaderSource instructions position = SourceMessage.unableToSource ↔
      findShaderSourceTracked instructions position = none) ∧
    (∀ d, findShaderSourceTracked instructions position = some d ↔
      TrackedDirectiveSpec (instructions.take (position + 1)) d) := by
  have h1 : findShaderSourceTracked instructions position
      = specWalkTracked instructions position := by
    unfold findShaderSourceTracked specWalkTracked
    rw [findShaderSourceLoop_eq_foldl]
  refine ⟨h1, ?_, ?_⟩
  · rcases htr : findShaderSourceTracked instructions position with _ | d <;>
      simp [findShaderSource, htr]
  · intro d
    rw [h1]
    exact trackState_lastLineInst_iff (instructions.take (position + 1)) d

/-- C8 witness: the stream `[OpLine f 42 7, OpNop, OpFunctionEnd, OpNop]`.
At index 1 the `OpLine` directive is in scope (the declarative spec holds of
it); at index 3, past the `OpFunctionEnd`, the walk emits "Unable to
source". -/
theorem findShaderSource_spec_witness :
    TrackedDirectiveSpec
      (([⟨[8, 1, 42, 7], ""⟩, ⟨[1], ""⟩, ⟨[56], ""⟩, ⟨[1], ""⟩] :
        List Instruction).take (1 + 1)) ⟨[8, 1, 42, 7], ""⟩ ∧
    findShaderSource [⟨[8, 1, 42, 7], ""⟩, ⟨[1], ""⟩, ⟨[56], ""⟩, ⟨[1], ""⟩] 3
      = SourceMessage.unableToSource :=
  ⟨((findShaderSource_spec [⟨[8, 1, 42, 7], ""⟩, ⟨[1], ""⟩, ⟨[56], ""⟩, ⟨[1], ""⟩] 1).2.2
      ⟨[8, 1, 42, 7], ""⟩).mp (by decide),
    ((findShaderSource_spec [⟨[8, 1, 42, 7], ""⟩, ⟨[1], ""⟩, ⟨[56], ""⟩, ⟨[1], ""⟩] 3).2.1).mpr
      (by decide)⟩

end GpuavModel
